import Mathlib

/-!
Verification development for the browser-mcp-server repository.

The definitions below are shallow embeddings of the JavaScript sources:

* `src/utils.js`            — module table (`MODULE_MAPPING`, `MODULE_DESCRIPTIONS`),
                              protocol constants.
* `src/tools/index.js`      — the dynamic tool registry: `updateRegistry` and the
                              `browser_manage_modules` handler.
* `src/browser.js`          — the connection manager: `connectToBrowser`,
                              `resetBrowserState`, `setActivePageIndex`.
* `src/cdp.js`              — the CDP session cache: `getCDPSession`, `resetCDPSession`.
* `src/tools/pages.js`      — the page-management handlers (`browser_close_page`).
* `src/index.js`            — the protocol layer: `BrowserMCPServer.handleLine`,
                              `handleInitialize`, the line-event dispatch.

JavaScript objects whose identity matters (pages, browser handles, CDP sessions)
are modelled by natural-number identities; JavaScript `undefined` flowing through
arithmetic comparisons is modelled by `Option` together with the comparison
functions `jsUndefLt` / `jsUndefGe` (any comparison against `undefined` is false,
as in JS, where it evaluates via `NaN`).  The `require(...)` environment of the
registry is a parameter (`RequireEnv`): each module file contributes the lists of
tool names and handler keys it exports.
-/

namespace BrowserMCP

/-! ### `src/utils.js` — module table -/

/-- The table `MODULE_MAPPING` from `src/utils.js`: known module name → provider file list. -/
def MODULE_MAPPING : List (String × List String) := [
  ("network", ["network"]),
  ("performance", ["performance"]),
  ("security", ["security"]),
  ("storage", ["storage"]),
  ("media", ["media"]),
  ("tabs", ["pages"]),
  ("extraction", ["info_opt"]),
  ("advanced", ["mouse", "keyboard", "console", "system", "navigation_opt", "interaction_opt"])]

/-- The table `MODULE_DESCRIPTIONS` from `src/utils.js`. -/
def MODULE_DESCRIPTIONS : List (String × String) := [
  ("network", "Network monitoring, HAR export, WebSocket inspection, throttling"),
  ("performance", "CPU profiling, memory snapshots, runtime metrics, web vitals"),
  ("security", "Security headers, TLS/SSL info, CSP monitoring, mixed content detection"),
  ("storage", "IndexedDB, Cache Storage, Service Workers management"),
  ("media", "Audio/Video element inspection, spectral analysis, playback control"),
  ("tabs", "Multi-tab management (new, switch, close, list)"),
  ("extraction", "Advanced data extraction (DOM, text content, page metadata)"),
  ("advanced", "Low-level mouse/keyboard events, console logs, system info")]

/-- Whether `MODULE_MAPPING[m]` is defined, i.e. `m` is a known module name. -/
def knownModule (m : String) : Bool := (MODULE_MAPPING.lookup m).isSome

/-- The provider-file list of a known module (`MODULE_MAPPING[moduleName]`). -/
def moduleFiles (m : String) : List String := (MODULE_MAPPING.lookup m).getD []

/-! ### `src/tools/index.js` — tool registry -/

/-- The exports of one tool file that `updateRegistry` reads, reduced to the tool
names in each exported definitions array and the keys of each exported handlers
object (`coreDefinitions` / `coreHandlers` / `optionalDefinitions` /
`optionalHandlers` / `definitions` / `handlers`).  A file that lacks an export
contributes the empty list, matching the `if (mod.xxx)` guards in the source. -/
structure ModuleExports where
  coreDefinitions : List String
  coreHandlers : List String
  optionalDefinitions : List String
  optionalHandlers : List String
  definitions : List String
  handlers : List String
deriving Repr, DecidableEq

/-- The `require(...)` environment seen by `updateRegistry`: what each tool file
exports, and what the plugin-directory scan (step 4 of the rebuild) contributes.
A standalone module file whose `require` throws is logged and skipped by the
source, which is the same as contributing empty lists here. -/
structure RequireEnv where
  exportsOf : String → ModuleExports
  pluginDefs : List String
  pluginHandlers : List String

/-- The fixed core files required by `updateRegistry`
(`coreModules = [navigation, interaction, info, docs]`). -/
def coreModuleFiles : List String := ["navigation", "interaction", "info", "docs"]

/-- Tool names contributed by the core pass of the rebuild
(`mod.coreDefinitions` of each core file, in file order). -/
def coreTools (env : RequireEnv) : List String :=
  (coreModuleFiles.map fun f => (env.exportsOf f).coreDefinitions).flatten

/-- The name of the module-management tool pushed by `updateRegistry`. -/
def manageModulesTool : String := "browser_manage_modules"

/-- Tool names contributed by one provider-file entry of an active module:
`f.endsWith('_opt')` selects the `optionalDefinitions` of the owning core file
(`f.replace('_opt', '.js')`), otherwise the standalone file's `definitions`. -/
def fileTools (env : RequireEnv) (f : String) : List String :=
  if f.endsWith "_opt" then (env.exportsOf (f.dropRight 4)).optionalDefinitions
  else (env.exportsOf f).definitions

/-- Handler keys contributed by one provider-file entry of an active module. -/
def fileHandlerKeys (env : RequireEnv) (f : String) : List String :=
  if f.endsWith "_opt" then (env.exportsOf (f.dropRight 4)).optionalHandlers
  else (env.exportsOf f).handlers

/-- All tool names contributed by one active module (its provider files merged
in declaration order). -/
def moduleTools (env : RequireEnv) (m : String) : List String :=
  ((moduleFiles m).map (fileTools env)).flatten

/-- All handler keys contributed by one active module. -/
def moduleHandlerKeys (env : RequireEnv) (m : String) : List String :=
  ((moduleFiles m).map (fileHandlerKeys env)).flatten

/-- The effect of `Object.assign(handlers, ...)` on the key set of a JS object: a key already
present keeps its position (its value is overwritten), a new key is appended. -/
def assignKey (ks : List String) (k : String) : List String :=
  if ks.contains k then ks else ks ++ [k]

/-- Assign a list of keys left to right. -/
def assignKeys (ks : List String) (new : List String) : List String :=
  new.foldl assignKey ks

/-- The derived tool list produced by a full rebuild (`updateRegistry`) from an
active-module list: core definitions, then the `browser_manage_modules` tool,
then each active module's contributions in activation (insertion) order, then
the plugin scan. -/
def buildTools (env : RequireEnv) (active : List String) : List String :=
  coreTools env ++ [manageModulesTool] ++ (active.map (moduleTools env)).flatten
    ++ env.pluginDefs

/-- The derived handler-map key set produced by a full rebuild, following the
assignment order of the source (core handlers, the `browser_manage_modules`
handler, active modules, plugins). -/
def buildHandlerKeys (env : RequireEnv) (active : List String) : List String :=
  let h1 := assignKeys [] (coreModuleFiles.map fun f => (env.exportsOf f).coreHandlers).flatten
  let h2 := assignKey h1 manageModulesTool
  let h3 := assignKeys h2 (active.map (moduleHandlerKeys env)).flatten
  assignKeys h3 env.pluginHandlers

/-- The registry module state of `src/tools/index.js`: the derived `tools` array
(tool names), the derived `handlers` object (its key set), and the
`activeModules` set.  A JS `Set` iterates in insertion order, so it is modelled
as a duplicate-free list. -/
structure RegistryState where
  tools : List String
  handlersKeys : List String
  activeModules : List String
deriving Repr, DecidableEq

/-- The rebuild `updateRegistry()`: clears the derived fields and rebuilds them from the
current active-module set.  The active set itself is not touched. -/
def updateRegistry (env : RequireEnv) (st : RegistryState) : RegistryState :=
  { st with tools := buildTools env st.activeModules,
            handlersKeys := buildHandlerKeys env st.activeModules }

/-- The registry state after the initial build at module load
(`updateRegistry()` at the bottom of `src/tools/index.js`). -/
def initialRegistry (env : RequireEnv) : RegistryState :=
  updateRegistry env { tools := [], handlersKeys := [], activeModules := [] }

/-- The `action` argument of `browser_manage_modules`
(schema enum `['list', 'load', 'unload']`). -/
inductive ManageAction
  | list
  | load
  | unload
deriving Repr, DecidableEq

/-- Observable events of one `browser_manage_modules` call, in emission order:
`rebuilt` marks the completed `updateRegistry()` call, `notified` an invocation
of the injected `notifyCallback`, `returned` the handler returning its result. -/
inductive RegEvent
  | rebuilt
  | notified
  | returned
deriving Repr, DecidableEq

/-- A handler call either returns a result object (text content) or throws. -/
inductive CallOutcome
  | ok (text : String)
  | err (msg : String)
deriving Repr, DecidableEq

/-- The full effect of one `browser_manage_modules` call. -/
structure CallResult where
  state : RegistryState
  outcome : CallOutcome
  events : List RegEvent
deriving Repr, DecidableEq

/-- The text of the `action: 'list'` result. -/
def moduleListText (active : List String) : String :=
  let lines := MODULE_MAPPING.map fun p =>
    let status := if active.contains p.fst then "✅ Loaded" else "💤 Unloaded"
    "• " ++ p.fst ++ ": " ++ ((MODULE_DESCRIPTIONS.lookup p.fst).getD "") ++ " [" ++ status ++ "]"
  "📦 Browser MCP Modules:\n\n" ++ String.intercalate "\n" lines ++
    "\n\nUse \x7baction: \x27load\x27, module: \x27...\x27\x7d to enable extra tools."

/-- The `handlers.browser_manage_modules` handler of `src/tools/index.js`
(lines 54–88).  `cbSet` says whether a `notifyCallback` was injected
(`setNotificationCallback`); the source guards the call with
`if (notifyCallback)`.  The name check `if (!moduleName)` (line 70) tests JS
falsiness, which holds both for a missing `module` argument and for the empty
string, and runs before the `MODULE_MAPPING` table lookup. -/
def manageModules (env : RequireEnv) (cbSet : Bool) (st : RegistryState)
    (action : ManageAction) (moduleName : Option String) : CallResult :=
  match action with
  | .list => ⟨st, .ok (moduleListText st.activeModules), [.returned]⟩
  | .load =>
    match moduleName with
    | none => ⟨st, .err "Module name is required", []⟩
    | some m =>
      if m = "" then ⟨st, .err "Module name is required", []⟩
      else if !knownModule m then ⟨st, .err ("Unknown module: " ++ m), []⟩
      else if st.activeModules.contains m then
        ⟨st, .ok ("ℹ️ Module \x27" ++ m ++ "\x27 already loaded."), [.returned]⟩
      else
        let st1 := updateRegistry env { st with activeModules := st.activeModules ++ [m] }
        ⟨st1, .ok ("✅ Module \x27" ++ m ++ "\x27 loaded."),
          [.rebuilt] ++ (if cbSet then [.notified] else []) ++ [.returned]⟩
  | .unload =>
    match moduleName with
    | none => ⟨st, .err "Module name is required", []⟩
    | some m =>
      if m = "" then ⟨st, .err "Module name is required", []⟩
      else if !knownModule m then ⟨st, .err ("Unknown module: " ++ m), []⟩
      else if !st.activeModules.contains m then
        ⟨st, .ok ("ℹ️ Module \x27" ++ m ++ "\x27 not loaded."), [.returned]⟩
      else
        let st1 := updateRegistry env { st with activeModules := st.activeModules.erase m }
        ⟨st1, .ok ("✅ Module \x27" ++ m ++ "\x27 unloaded."),
          [.rebuilt] ++ (if cbSet then [.notified] else []) ++ [.returned]⟩

/-- One protocol-level call to `browser_manage_modules`. -/
structure ManageCall where
  action : ManageAction
  moduleName : Option String
deriving Repr, DecidableEq

/-- Run a sequence of `browser_manage_modules` calls from a state. -/
def runCalls (env : RequireEnv) (cbSet : Bool) : RegistryState → List ManageCall → RegistryState
  | st, [] => st
  | st, c :: rest => runCalls env cbSet (manageModules env cbSet st c.action c.moduleName).state rest

/-! ### `src/browser.js` — connection manager -/

/-- A browsing context: identity plus its current page list (`context.pages()`).
Pages are identities (JS object identity), never URLs. -/
structure Ctx where
  cid : Nat
  pages : List Nat
deriving Repr, DecidableEq

/-- A browser handle as health-checked by `connectToBrowser`.
`isConn = none` models a handle without an `isConnected` method
(`!browser.isConnected` is then truthy); `isConn = some b` models
`browser.isConnected()` returning `b`.  `contexts` models `browser.contexts()`. -/
structure Handle where
  hid : Nat
  isConn : Option Bool
  contexts : List Ctx
deriving Repr, DecidableEq

/-- The health check of `connectToBrowser` line 78:
`browser && (!browser.isConnected || !browser.isConnected())`. -/
def connectionLost (h : Handle) : Bool :=
  match h.isConn with
  | none => true
  | some b => !b

/-- The module state of `src/browser.js`:
`let browser, context, page, activePageIndex`.  All writes to
`activePageIndex` in the source are non-negative (`0`, `pages.length - 1`
guarded by `pages.length > 0`, a validated index, `Math.max(0, …)`), so it is
a `Nat`. -/
structure BrowserState where
  browser : Option Handle
  context : Option Ctx
  page : Option Nat
  activePageIndex : Nat
deriving Repr, DecidableEq

/-- The external world one `connectToBrowser` call interacts with:
* `attach` — result of `pw.chromium.connectOverCDP('http://localhost:9222')`
  (`some` handle on success, `none` when the connect attempt throws);
* `freshCtx` — the context `newContext()` would create;
* `chromeExec` — result of `findChromeExecutable()`;
* `launch` — result of `pw.chromium.launchPersistentContext(profileDir, opts)`:
  the persistent context on success, the thrown error's message on failure;
* `launchedConn` — the `isConnected` surface of the launched persistent
  context (the source stores `browser = context` in launch mode);
* `freshPage` — the page `newPage()` would create. -/
structure World where
  attach : Option Handle
  freshCtx : Ctx
  chromeExec : Option String
  launch : Except String Ctx
  launchedConn : Option Bool
  freshPage : Nat

/-- In launch mode the stored browser handle is the persistent context itself
(`browser = context`). -/
def handleOfLaunched (w : World) (c : Ctx) : Handle :=
  ⟨c.cid, w.launchedConn, []⟩

/-- Whether, in `charsLeadWith t s`, the character list `s` start with `t`? -/
def charsLeadWith : List Char → List Char → Bool
  | [], _ => true
  | _ :: _, [] => false
  | a :: as, b :: bs => a == b && charsLeadWith as bs

/-- Does the character list contain `t` as a contiguous run? -/
def charsContain (t : List Char) : List Char → Bool
  | [] => t.isEmpty
  | c :: rest => charsLeadWith t (c :: rest) || charsContain t rest

/-- The JS string method `s.includes(t)`. -/
def strIncludes (s t : String) : Bool := charsContain t.data s.data

/-- The remediation error thrown when no system browser was found and the
Playwright Chromium launch failed with "Executable doesn't exist"
(`src/browser.js` lines 142–148, text verbatim). -/
def noBrowserMsg : String :=
  "❌ No Chrome/Chromium browser found!\n\n" ++
  "This MCP server needs a Chrome or Chromium browser to work.\n\n" ++
  "Option 1 - Install Chrome/Chromium on your system\n" ++
  "Option 2 - Install Playwright\x27s Chromium: npx playwright install chromium\n" ++
  "Option 3 - Use with Antigravity: Open browser via Chrome logo\n"

/-- The acquisition strategy of `connectToBrowser` when no usable cached handle
exists (lines 85–159): STRATEGY 1 attach over CDP (a failure is swallowed),
then STRATEGY 2 launch a persistent context; a launch failure with no system
executable and a missing Playwright Chromium becomes the remediation error,
any other launch failure is rethrown.  Returns the new handle and the context
selected (first existing context or a fresh one in attach mode, the persistent
context itself in launch mode). -/
def acquireBrowser (w : World) : Except String (Handle × Ctx) :=
  match w.attach with
  | some h =>
    .ok (h, match h.contexts with
            | [] => w.freshCtx
            | c :: _ => c)
  | none =>
    match w.launch with
    | .ok c => .ok (handleOfLaunched w c, c)
    | .error msg =>
      if w.chromeExec.isNone && strIncludes msg "Executable doesn\x27t exist" then
        .error noBrowserMsg
      else .error msg

/-- The reset performed at the top of `connectToBrowser` (lines 77–83) when the
cached handle fails its health check: `browser`, `context` and `page` are
nulled; `activePageIndex` is left as it was and no CDP-side reset happens. -/
def resetOnDisconnect (st : BrowserState) : BrowserState :=
  match st.browser with
  | some h =>
    if connectionLost h then { st with browser := none, context := none, page := none }
    else st
  | none => st

/-- The function `connectToBrowser()` (`src/browser.js` lines 76–177).  On success returns
the new module state together with the context and the resolved active page
(the source returns `{ browser, context, page }`). -/
def connectToBrowser (w : World) (st0 : BrowserState) :
    Except String (BrowserState × Ctx × Nat) :=
  let st := resetOnDisconnect st0
  match (match st.browser with
         | none => acquireBrowser w
         | some h =>
           .ok (h, match st.context with
                   | some c => c
                   | none => match h.contexts with
                             | [] => w.freshCtx
                             | c :: _ => c)) with
  | .error e => .error e
  | .ok (h, c) =>
    match c.pages with
    | [] =>
      -- const page = await context.newPage(); activePageIndex = 0
      let c' : Ctx := { c with pages := [w.freshPage] }
      .ok ({ st with browser := some h, context := some c',
                     page := some w.freshPage, activePageIndex := 0 }, c', w.freshPage)
    | p :: ps =>
      -- if (activePageIndex >= pages.length) activePageIndex = pages.length - 1
      let len := (p :: ps).length
      let idx := if st.activePageIndex ≥ len then len - 1 else st.activePageIndex
      let pg := (p :: ps).getD idx 0
      .ok ({ st with browser := some h, context := some c,
                     page := some pg, activePageIndex := idx }, c, pg)

/-- The function `resetBrowserState()` (`src/browser.js` lines 196–201): unlike the
disconnect reset inside `connectToBrowser`, it also zeroes
`activePageIndex`. -/
def resetBrowserState (_st : BrowserState) : BrowserState :=
  { browser := none, context := none, page := none, activePageIndex := 0 }

/-! ### `src/cdp.js` — CDP session cache -/

/-- The module state of `src/cdp.js` (`let cdpSession, currentPage`), extended
with the bookkeeping the proofs observe: `nextSid` is the identity the next
`page.context().newCDPSession(page)` would return (session objects are fresh),
and `detachedLog` records each `cdpSession.detach()` call in order. -/
structure CdpState where
  cdpSession : Option Nat
  currentPage : Option Nat
  nextSid : Nat
  detachedLog : List Nat
  createdLog : List Nat
deriving Repr, DecidableEq

/-- The CDP module state at process start. -/
def initialCdp : CdpState :=
  { cdpSession := none, currentPage := none, nextSid := 0, detachedLog := [], createdLog := [] }

/-- The function `getCDPSession()` (`src/cdp.js` lines 17–41), parametrised by the page that
`connectToBrowser()` resolved.  If no session is cached or the cached session's
page differs by identity from the resolved page, the old session (if any) is
detached — detach errors are logged and swallowed, so the control flow is the
same either way — and a fresh session bound to the resolved page is created. -/
def getCDPSession (page : Nat) (st : CdpState) : Nat × CdpState :=
  if st.cdpSession.isNone || st.currentPage != some page then
    let detached := match st.cdpSession with
      | some s => st.detachedLog ++ [s]
      | none => st.detachedLog
    let sid := st.nextSid
    (sid, { cdpSession := some sid, currentPage := some page, nextSid := st.nextSid + 1,
            detachedLog := detached, createdLog := st.createdLog ++ [sid] })
  else
    (st.cdpSession.getD 0, st)

/-- The function `resetCDPSession()` (`src/cdp.js` lines 47–53): clears the cache without
attempting a detach. -/
def resetCDPSession (st : CdpState) : CdpState :=
  { st with cdpSession := none, currentPage := none }

/-- The combined process state relevant to the connection claims. -/
structure SystemState where
  conn : BrowserState
  cdp : CdpState
deriving Repr, DecidableEq

/-- The call `connectToBrowser` lifted to the combined state.  The module
`src/browser.js` does not require `src/cdp.js`; the lost-connection reset path never calls
`resetCDPSession`, so the CDP module state passes through untouched. -/
def connectToBrowserSys (w : World) (s : SystemState) :
    Except String (SystemState × Ctx × Nat) :=
  match connectToBrowser w s.conn with
  | .ok (st', c, p) => .ok (⟨st', s.cdp⟩, c, p)
  | .error e => .error e

/-! ### `src/tools/pages.js` — `browser_close_page` -/

/-- JS `x < n` where `x` may be `undefined` (comparison with `undefined` is
false, via `NaN`). -/
def jsUndefLt (x : Option Int) (n : Int) : Bool :=
  match x with
  | none => false
  | some i => decide (i < n)

/-- JS `x >= n` where `x` may be `undefined`. -/
def jsUndefGe (x : Option Int) (n : Int) : Bool :=
  match x with
  | none => false
  | some i => decide (i ≥ n)

/-- Result of one `browser_close_page` call: whether the handler returned
normally, the result text, and the final browser-module state and context. -/
structure CloseResult where
  ok : Bool
  text : String
  finalState : BrowserState
  finalCtx : Ctx
deriving Repr, DecidableEq

/-- The handler `handlers.browser_close_page` (`src/tools/pages.js` lines 118–139).

The source destructures `const { context, activePageIndex } = await
connectToBrowser()`, but `connectToBrowser` returns `{ browser, context,
page }` only, so the local `activePageIndex` is `undefined` (modelled as
`none`); it then flows into `closeIdx` (when no `index` argument is given) and
into the clamp guard `if (activePageIndex >= context.pages().length)`. -/
def browser_close_page (w : World) (st : BrowserState) (argIndex : Option Int) : CloseResult :=
  match connectToBrowser w st with
  | .error e => ⟨false, e, st, ⟨0, []⟩⟩
  | .ok (st1, c, _p) =>
    let activePageIndexLocal : Option Int := none
    let targetPages := c.pages
    let closeIdx : Option Int := match argIndex with
      | some i => some i
      | none => activePageIndexLocal
    if jsUndefLt closeIdx 0 || jsUndefGe closeIdx targetPages.length then
      ⟨false, "Invalid page index: " ++ (match closeIdx with
                                         | some i => toString i
                                         | none => "undefined"), st1, c⟩
    else
      match closeIdx with
      | none =>
        -- targetPages[undefined].close() throws a TypeError
        ⟨false, "Cannot read properties of undefined (reading \x27close\x27)", st1, c⟩
      | some i =>
        let pagesAfter := targetPages.eraseIdx i.toNat
        let c' : Ctx := { c with pages := pagesAfter }
        let st2 := if jsUndefGe activePageIndexLocal pagesAfter.length then
            { st1 with activePageIndex := max 0 (pagesAfter.length - 1) }
          else st1
        ⟨true, "Closed page " ++ toString i ++ ". Active page is now " ++
            toString st2.activePageIndex ++ ".", st2, c'⟩

/-! ### `src/index.js` — protocol layer -/

/-- The constant `MCP_PROTOCOL_VERSION` from `src/utils.js`. -/
def MCP_PROTOCOL_VERSION : String := "2024-11-05"

/-- The handshake reply of `handleInitialize` (`src/index.js` lines 59–69):
the echoed protocol version, the key set of the declared `capabilities.tools`
object, and the static server identity. -/
structure InitReply where
  protocolVersion : String
  capabilitiesToolsKeys : List String
  serverName : String
  serverVersion : String
deriving Repr, DecidableEq

/-- JS `v || d` for a string `v` that may be `undefined` (the empty string is
falsy too). -/
def jsOrDefault (v : Option String) (d : String) : String :=
  match v with
  | some s => if s = "" then d else s
  | none => d

/-- The handler `handleInitialize` (`src/index.js` lines 59–69).  The declared capabilities
object is `{ tools: {} }` — the `tools` capability carries no keys at all. -/
def handleInitReply (pv : Option String) (ver : String) : InitReply :=
  { protocolVersion := jsOrDefault pv MCP_PROTOCOL_VERSION,
    capabilitiesToolsKeys := [],
    serverName := "browser-automation-playwright",
    serverVersion := ver }

/-- How `handleLine` treats one parsed request line:
`initMsg` (`initialize`), `toolsListMsg` (`tools/list`) and `otherMsg`
(unknown method) are answered synchronously inside the line event;
`toolCallMsg d` (`tools/call`) suspends at `await this.handleToolCall(request)`
and its handler settles `d` completion turns later. -/
inductive ReqKind
  | initMsg
  | toolsListMsg
  | toolCallMsg (delay : Nat)
  | otherMsg
deriving Repr, DecidableEq

/-- One request line: its JSON-RPC id and how it is handled. -/
structure LineReq where
  rid : Nat
  kind : ReqKind
deriving Repr, DecidableEq

/-- Whether `handleLine` answers this request before its first suspension. -/
def isSyncKind : ReqKind → Bool
  | .toolCallMsg _ => false
  | _ => true

/-- The dispatcher wiring is `this.rl.on('line', (line) => this.handleLine(line))`
(`src/index.js` line 29): the listener's returned promise is not awaited, and
`readline` emits every buffered line event synchronously, one after the other.
An async `handleLine` hands control back at its first `await`, so the
synchronous responses of all buffered lines are emitted, in arrival order,
before any awaited `tools/call` handler can settle. -/
def syncResponses (reqs : List LineReq) : List Nat :=
  reqs.filterMap fun r => if isSyncKind r.kind then some r.rid else none

/-- The `tools/call` requests still pending after the synchronous cascade, as
(settle delay, request id) in arrival order. -/
def pendingCalls (reqs : List LineReq) : List (Nat × Nat) :=
  reqs.filterMap fun r => match r.kind with
    | .toolCallMsg d => some (d, r.rid)
    | _ => none

/-- Insert a pending completion into a list sorted by settle delay, after every
completion that settles no later than it (completions with equal delay settle
in arrival order). -/
def insertByDelay (p : Nat × Nat) : List (Nat × Nat) → List (Nat × Nat)
  | [] => [p]
  | q :: qs => if p.fst < q.fst then p :: q :: qs else q :: insertByDelay p qs

/-- Order the pending completions by settle time (stable in arrival order). -/
def settleOrder : List (Nat × Nat) → List (Nat × Nat)
  | [] => []
  | p :: ps => insertByDelay p (settleOrder ps)

/-- The ids answered by the event-loop phase after the synchronous cascade, in
settle order. -/
def pendingResponses (reqs : List LineReq) : List Nat :=
  (settleOrder (pendingCalls reqs)).map Prod.snd

/-- The full response order the server emits for one buffered chunk of request
lines: first the synchronous answers of the line-event cascade, then the
`tools/call` answers as their handlers settle. -/
def serverResponses (reqs : List LineReq) : List Nat :=
  syncResponses reqs ++ pendingResponses reqs

/-! ### Invariants and concrete instances used by the theorems -/

/-- Registry invariant: the derived fields are exactly the full rebuild of the
active-module set, the active set is duplicate-free, and every active name is a
known module (names are validated before insertion). -/
def RegInv (env : RequireEnv) (st : RegistryState) : Prop :=
  st.tools = buildTools env st.activeModules ∧
  st.handlersKeys = buildHandlerKeys env st.activeModules ∧
  st.activeModules.Nodup ∧
  ∀ m ∈ st.activeModules, knownModule m = true

/-- Whether `s` contains `t` as a substring. -/
def containsStr (s t : String) : Prop := ∃ pre post, s = pre ++ (t ++ post)

/-- CDP freshness invariant: a cached session was produced by an earlier
`newCDPSession`, so its identity is below the next fresh identity. -/
def cdpFresh (st : CdpState) : Prop :=
  ∀ s, st.cdpSession = some s → s < st.nextSid

/-- At most one live session: every session ever created is either already
detached or is the single cached one (in creation order). -/
def cdpAtMostOneLive (st : CdpState) : Prop :=
  st.createdLog = st.detachedLog ++ (match st.cdpSession with
                                     | some s => [s]
                                     | none => [])

/-- A concrete `require` environment used by the witnesses.  The files listed
carry the tool names and handler keys of the corresponding repository files
(v1.5.0 module layout); files not listed contribute no exports. -/
def sampleExports (f : String) : ModuleExports :=
  if f = "navigation" then
    ⟨["browser_navigate"], ["browser_navigate"],
     ["browser_reload", "browser_go_back", "browser_go_forward"],
     ["browser_reload", "browser_go_back", "browser_go_forward"],
     ["browser_navigate", "browser_reload", "browser_go_back", "browser_go_forward"],
     ["browser_navigate", "browser_reload", "browser_go_back", "browser_go_forward"]⟩
  else if f = "interaction" then
    ⟨["browser_action"], ["browser_action"], ["browser_select"], ["browser_select"],
     ["browser_action", "browser_select"], ["browser_action", "browser_select"]⟩
  else if f = "docs" then
    ⟨["browser_docs"], ["browser_docs"], [], [], ["browser_docs"], ["browser_docs"]⟩
  else if f = "media" then
    ⟨[], [], [], [],
     ["browser_get_media_summary", "browser_get_audio_analysis", "browser_control_media"],
     ["browser_get_media_summary", "browser_get_audio_analysis", "browser_control_media"]⟩
  else if f = "pages" then
    ⟨[], [], [], [],
     ["browser_list_pages", "browser_new_page", "browser_switch_page", "browser_close_page"],
     ["browser_list_pages", "browser_new_page", "browser_switch_page", "browser_close_page"]⟩
  else if f = "keyboard" then
    ⟨[], [], [], [], ["browser_press_key"], ["browser_press_key"]⟩
  else
    ⟨[], [], [], [], [], []⟩

/-- Sample environment: the file exports above, no plugin directory. -/
def sampleEnv : RequireEnv := ⟨sampleExports, [], []⟩

/-- Witness call sequence: load media, load tabs, then a redundant load. -/
def sampleCalls : List ManageCall :=
  [⟨.load, some "media"⟩, ⟨.load, some "tabs"⟩, ⟨.load, some "media"⟩]

/-- The same final active set reached in the opposite order, with a failed and
a redundant call mixed in. -/
def sampleCallsAlt : List ManageCall :=
  [⟨.load, some "tabs"⟩, ⟨.load, some "nosuch"⟩, ⟨.load, some "media"⟩, ⟨.load, some "tabs"⟩]

/-- A healthy cached handle (attach-mode handle whose `isConnected()` is true). -/
def sampleHandle : Handle := ⟨0, some true, []⟩

/-- A context holding two pages (identities 6 and 7). -/
def sampleCtx : Ctx := ⟨0, [6, 7]⟩

/-- Cached, healthy connection state: active page index 1 (page 7). -/
def sampleConnected : BrowserState := ⟨some sampleHandle, some sampleCtx, some 7, 1⟩

/-- A world whose attach and launch strategies are never consulted on the
cached-healthy path. -/
def sampleWorld : World := ⟨none, ⟨99, []⟩, none, .error "unused", none, 42⟩

/-- A world with no attach target, no system browser and no bundled Chromium:
the launch throws "Executable doesn't exist …". -/
def bareWorld : World :=
  ⟨none, ⟨0, []⟩, none,
   .error "Failed to launch: Executable doesn\x27t exist at /root/.cache/ms-playwright",
   none, 0⟩

/-- A world where attaching succeeds: the attached browser has one context with
one page (identity 3). -/
def attachWorld : World := ⟨some ⟨5, some true, [⟨1, [3]⟩]⟩, ⟨9, []⟩, none, .error "unused", none, 8⟩

/-- A stale handle: its `isConnected()` reports false. -/
def staleHandle : Handle := ⟨4, some false, [⟨2, [11]⟩]⟩

/-- State caching the stale handle, with active page index 2. -/
def staleState : BrowserState := ⟨some staleHandle, some ⟨2, [11]⟩, some 11, 2⟩

/-- A CDP state caching session 0 bound to page 7, with one session created. -/
def sampleCdp : CdpState := ⟨some 0, some 7, 1, [], [0]⟩

/-- The two-line chunk refuting response ordering: a `tools/call` line followed
by a `tools/list` line. -/
def reorderChunk : List LineReq := [⟨1, .toolCallMsg 0⟩, ⟨2, .toolsListMsg⟩]

/-! ## Helper lemmas -/

set_option maxRecDepth 20000

theorem buildTools_length (env : RequireEnv) (a : List String) :
    (buildTools env a).length =
      (coreTools env).length + 1 + ((a.map fun m => (moduleTools env m).length).sum)
        + env.pluginDefs.length := by
  simp [buildTools, Function.comp_def]
  omega

theorem buildTools_length_perm (env : RequireEnv) {a₁ a₂ : List String}
    (h : a₁.Perm a₂) : (buildTools env a₁).length = (buildTools env a₂).length := by
  rw [buildTools_length, buildTools_length]
  have := (h.map fun m => (moduleTools env m).length).sum_eq
  omega

theorem regInv_initial (env : RequireEnv) : RegInv env (initialRegistry env) := by
  refine ⟨rfl, rfl, ?_, ?_⟩ <;> simp [initialRegistry, updateRegistry]

theorem regInv_manage (env : RequireEnv) (cb : Bool) (st : RegistryState)
    (a : ManageAction) (mn : Option String) (h : RegInv env st) :
    RegInv env (manageModules env cb st a mn).state := by
  obtain ⟨ht, hh, hnd, hknown⟩ := h
  cases a with
  | list => exact ⟨ht, hh, hnd, hknown⟩
  | load =>
    cases mn with
    | none => exact ⟨ht, hh, hnd, hknown⟩
    | some m =>
      by_cases hne : m = ""
      · have hs : (manageModules env cb st .load (some m)).state = st := by
          simp [manageModules, hne]
        rw [hs]; exact ⟨ht, hh, hnd, hknown⟩
      · cases hk : knownModule m with
        | false =>
          have hs : (manageModules env cb st .load (some m)).state = st := by
            simp [manageModules, hne, hk]
          rw [hs]; exact ⟨ht, hh, hnd, hknown⟩
        | true =>
          by_cases hmem : m ∈ st.activeModules
          · have hs : (manageModules env cb st .load (some m)).state = st := by
              simp [manageModules, hne, hk, hmem]
            rw [hs]; exact ⟨ht, hh, hnd, hknown⟩
          · have hs : (manageModules env cb st .load (some m)).state =
                updateRegistry env { st with activeModules := st.activeModules ++ [m] } := by
              simp [manageModules, hne, hk, hmem]
            rw [hs]
            refine ⟨rfl, rfl, ?_, ?_⟩
            · simp [updateRegistry, List.nodup_append, hnd, hmem]
            · intro x hx
              simp only [updateRegistry] at hx
              rcases List.mem_append.mp hx with hx | hx
              · exact hknown x hx
              · simp at hx; subst hx; exact hk
  | unload =>
    cases mn with
    | none => exact ⟨ht, hh, hnd, hknown⟩
    | some m =>
      by_cases hne : m = ""
      · have hs : (manageModules env cb st .unload (some m)).state = st := by
          simp [manageModules, hne]
        rw [hs]; exact ⟨ht, hh, hnd, hknown⟩
      · cases hk : knownModule m with
        | false =>
          have hs : (manageModules env cb st .unload (some m)).state = st := by
            simp [manageModules, hne, hk]
          rw [hs]; exact ⟨ht, hh, hnd, hknown⟩
        | true =>
          by_cases hmem : m ∈ st.activeModules
          · have hs : (manageModules env cb st .unload (some m)).state =
                updateRegistry env { st with activeModules := st.activeModules.erase m } := by
              simp [manageModules, hne, hk, hmem]
            rw [hs]
            refine ⟨rfl, rfl, ?_, ?_⟩
            · simp only [updateRegistry]
              exact hnd.erase m
            · intro x hx
              simp only [updateRegistry] at hx
              exact hknown x (List.mem_of_mem_erase hx)
          · have hs : (manageModules env cb st .unload (some m)).state = st := by
              simp [manageModules, hne, hk, hmem]
            rw [hs]; exact ⟨ht, hh, hnd, hknown⟩

theorem regInv_runCalls (env : RequireEnv) (cb : Bool) :
    ∀ (calls : List ManageCall) (st : RegistryState), RegInv env st →
      RegInv env (runCalls env cb st calls)
  | [], _, h => h
  | c :: rest, st, h =>
    regInv_runCalls env cb rest _ (regInv_manage env cb st c.action c.moduleName h)

theorem insertByDelay_perm (p : Nat × Nat) (l : List (Nat × Nat)) :
    (insertByDelay p l).Perm (p :: l) := by
  induction l with
  | nil => simp [insertByDelay]
  | cons q qs ih =>
    by_cases h : p.fst < q.fst
    · simp [insertByDelay, h]
    · simp only [insertByDelay, if_neg h]
      exact (ih.cons q).trans (List.Perm.swap p q qs)

theorem settleOrder_perm (l : List (Nat × Nat)) : (settleOrder l).Perm l := by
  induction l with
  | nil => simp [settleOrder]
  | cons p ps ih => exact (insertByDelay_perm p (settleOrder ps)).trans (ih.cons p)

theorem syncPend_perm (reqs : List LineReq) :
    (syncResponses reqs ++ (pendingCalls reqs).map Prod.snd).Perm (reqs.map LineReq.rid) := by
  induction reqs with
  | nil => simp [syncResponses, pendingCalls]
  | cons r rs ih =>
    cases hk : r.kind with
    | toolCallMsg d =>
      simp only [syncResponses, pendingCalls, List.filterMap_cons, hk, isSyncKind,
        List.map_cons]
      exact (List.perm_middle).trans (ih.cons r.rid)
    | initMsg =>
      simpa [syncResponses, pendingCalls, List.filterMap_cons, hk, isSyncKind]
        using ih.cons r.rid
    | toolsListMsg =>
      simpa [syncResponses, pendingCalls, List.filterMap_cons, hk, isSyncKind]
        using ih.cons r.rid
    | otherMsg =>
      simpa [syncResponses, pendingCalls, List.filterMap_cons, hk, isSyncKind]
        using ih.cons r.rid

theorem allSync_order (reqs : List LineReq) :
    (∀ r ∈ reqs, isSyncKind r.kind = true) → serverResponses reqs = reqs.map LineReq.rid := by
  induction reqs with
  | nil => intro; rfl
  | cons r rs ih =>
    intro hall
    have hr : isSyncKind r.kind = true := hall r (List.mem_cons_self r rs)
    have hrest : ∀ x ∈ rs, isSyncKind x.kind = true := fun x hx =>
      hall x (List.mem_cons_of_mem r hx)
    have hrs := ih hrest
    cases hk : r.kind with
    | toolCallMsg d => rw [hk] at hr; simp [isSyncKind] at hr
    | initMsg =>
      simp only [serverResponses, syncResponses, pendingCalls, pendingResponses,
        List.filterMap_cons, hk, isSyncKind, List.map_cons] at hrs ⊢
      simpa using hrs
    | toolsListMsg =>
      simp only [serverResponses, syncResponses, pendingCalls, pendingResponses,
        List.filterMap_cons, hk, isSyncKind, List.map_cons] at hrs ⊢
      simpa using hrs
    | otherMsg =>
      simp only [serverResponses, syncResponses, pendingCalls, pendingResponses,
        List.filterMap_cons, hk, isSyncKind, List.map_cons] at hrs ⊢
      simpa using hrs

/-! ## Claims -/

/-- C3 counterexample: the empty string is a module name absent from the
known-module table, yet a load request naming it does not fail with the
`Unknown module` error the claim asserts for every unknown name — the falsy
name check `if (!moduleName)` at `src/tools/index.js` line 70 intercepts it
first and the call fails with the missing-name error instead (the state is
still unchanged and no rebuild or notification happens). -/
theorem C3_empty_name_not_unknown_module :
    knownModule "" = false ∧
    manageModules sampleEnv true (initialRegistry sampleEnv) .load (some "") =
      ⟨initialRegistry sampleEnv, .err "Module name is required", []⟩ ∧
    (manageModules sampleEnv true (initialRegistry sampleEnv) .load (some "")).outcome ≠
      .err ("Unknown module: " ++ "") := by
  refine ⟨by decide, by simp [manageModules], by simp [manageModules]⟩

/-- C3 (amended): a load or unload naming a nonempty module name outside the
known-module table fails with the `Unknown module` error; a missing module
argument — and the empty-string name, which the JS-falsy check
`if (!moduleName)` intercepts before the table lookup — fails with the
missing-name error.  In every case the registry state is completely unchanged
and the event trace is empty: no rebuild runs and no notification fires. -/
theorem C3_unknown_module_rejected (env : RequireEnv) (cb : Bool) (st : RegistryState)
    (m : String) (a : ManageAction) (hk : knownModule m = false) (hne : m ≠ "")
    (ha : a ≠ ManageAction.list) :
    manageModules env cb st a (some m) = ⟨st, .err ("Unknown module: " ++ m), []⟩ ∧
    manageModules env cb st a none = ⟨st, .err "Module name is required", []⟩ ∧
    manageModules env cb st a (some "") = ⟨st, .err "Module name is required", []⟩ := by
  cases a with
  | list => exact absurd rfl ha
  | load => exact ⟨by simp [manageModules, hne, hk], rfl, by simp [manageModules]⟩
  | unload => exact ⟨by simp [manageModules, hne, hk], rfl, by simp [manageModules]⟩

theorem C3_unknown_module_rejected_witness :
    manageModules sampleEnv true (initialRegistry sampleEnv) .load (some "nosuch") =
      ⟨initialRegistry sampleEnv, .err ("Unknown module: " ++ "nosuch"), []⟩ :=
  (C3_unknown_module_rejected sampleEnv true (initialRegistry sampleEnv) "nosuch" .load
    (by decide) (by decide) (by decide)).1

/-- C4: the initialize handshake echoes the caller's protocol version (or the
default when none or an empty string is supplied) together with the static
server identity — but the declared capabilities are `{ tools: {} }`: no
`listChanged` flag is present, contradicting the claim (and the repository's
own dynamic-loading documentation, which requires `tools.listChanged: true`).
This theorem evaluates the handler and records the absence of the flag. -/
theorem C4_handshake_missing_list_changed :
    handleInitReply (some "2025-03-26") "1.5.0" =
      ⟨"2025-03-26", [], "browser-automation-playwright", "1.5.0"⟩ ∧
    "listChanged" ∉ (handleInitReply (some "2025-03-26") "1.5.0").capabilitiesToolsKeys ∧
    (handleInitReply none "1.5.0").protocolVersion = MCP_PROTOCOL_VERSION ∧
    (handleInitReply (some "") "1.5.0").protocolVersion = MCP_PROTOCOL_VERSION := by
  refine ⟨rfl, ?_, rfl, rfl⟩
  simp [handleInitReply]

/-- C7: closing the page at the active index does NOT clamp `activePageIndex`.
`browser_close_page` destructures `activePageIndex` from the return value of
`connectToBrowser()`, which does not carry that field, so the local is
`undefined` and the clamp guard `activePageIndex >= context.pages().length` is
never true.  Concretely: two pages, active index 1, closing page 1 leaves the
stored index at 1 with only one page left (the invariant
`activePageIndex ∈ [0, pageCount)` is broken, no clamp to the last valid index
happens), and calling with no index — documented as "closes current page" —
throws instead of closing. -/
theorem C7_close_page_clamp_dead :
    (browser_close_page sampleWorld sampleConnected (some 1)).ok = true ∧
    (browser_close_page sampleWorld sampleConnected (some 1)).finalCtx.pages = [6] ∧
    (browser_close_page sampleWorld sampleConnected (some 1)).finalState.activePageIndex = 1 ∧
    ¬ ((browser_close_page sampleWorld sampleConnected (some 1)).finalState.activePageIndex <
        (browser_close_page sampleWorld sampleConnected (some 1)).finalCtx.pages.length) ∧
    (browser_close_page sampleWorld sampleConnected none).ok = false := by
  decide

/-- C8: with no attach target, no discoverable system browser and the bundled
Playwright Chromium missing (the launch throws "Executable doesn't exist"),
`connectToBrowser` fails with the remediation error whose message contains all
three options — install a system browser, install the bundled Chromium, or use
attach mode via an externally started browser — rather than the raw launch
error. -/
theorem C8_connection_unavailable (w : World) (st : BrowserState) (m : String)
    (hb : st.browser = none) (ha : w.attach = none) (hc : w.chromeExec = none)
    (hl : w.launch = .error m)
    (hm : strIncludes m "Executable doesn\x27t exist" = true) :
    connectToBrowser w st = .error noBrowserMsg ∧
    containsStr noBrowserMsg "Option 1 - Install Chrome/Chromium on your system" ∧
    containsStr noBrowserMsg
      "Option 2 - Install Playwright\x27s Chromium: npx playwright install chromium" ∧
    containsStr noBrowserMsg "Option 3 - Use with Antigravity: Open browser via Chrome logo" := by
  refine ⟨?_, ?_, ?_, ?_⟩
  · simp [connectToBrowser, resetOnDisconnect, hb, acquireBrowser, ha, hc, hl, hm]
  · exact ⟨"❌ No Chrome/Chromium browser found!\n\nThis MCP server needs a Chrome or Chromium browser to work.\n\n",
      "\nOption 2 - Install Playwright\x27s Chromium: npx playwright install chromium\nOption 3 - Use with Antigravity: Open browser via Chrome logo\n",
      by decide⟩
  · exact ⟨"❌ No Chrome/Chromium browser found!\n\nThis MCP server needs a Chrome or Chromium browser to work.\n\nOption 1 - Install Chrome/Chromium on your system\n",
      "\nOption 3 - Use with Antigravity: Open browser via Chrome logo\n",
      by decide⟩
  · exact ⟨"❌ No Chrome/Chromium browser found!\n\nThis MCP server needs a Chrome or Chromium browser to work.\n\nOption 1 - Install Chrome/Chromium on your system\nOption 2 - Install Playwright\x27s Chromium: npx playwright install chromium\n",
      "\n", by decide⟩

theorem C8_connection_unavailable_witness :
    connectToBrowser bareWorld ⟨none, none, none, 0⟩ = .error noBrowserMsg ∧
    containsStr noBrowserMsg "Option 1 - Install Chrome/Chromium on your system" :=
  ⟨(C8_connection_unavailable bareWorld ⟨none, none, none, 0⟩
      "Failed to launch: Executable doesn\x27t exist at /root/.cache/ms-playwright"
      rfl rfl rfl rfl (by decide)).1,
   (C8_connection_unavailable bareWorld ⟨none, none, none, 0⟩
      "Failed to launch: Executable doesn\x27t exist at /root/.cache/ms-playwright"
      rfl rfl rfl rfl (by decide)).2.1⟩

/-- C9 counterexample: a buffered `tools/call` line followed by a `tools/list`
line is answered in the order [2, 1] — the `tools/list` response is emitted
during the synchronous line-event cascade while the `tools/call` handler is
still pending — so responses are NOT emitted in request arrival order. -/
theorem C9_response_order_refuted :
    serverResponses reorderChunk = [2, 1] ∧
    reorderChunk.map LineReq.rid = [1, 2] ∧
    serverResponses reorderChunk ≠ reorderChunk.map LineReq.rid := by
  decide

/-- C9 (amended): every buffered request is answered exactly once (the response
ids are a permutation of the request ids), and a chunk consisting only of
synchronously handled requests (initialize, tools/list, unknown method) is
answered in arrival order; but the dispatcher starts a later line before a
prior `tools/call` settles, so ordering does not hold in general (see the
counterexample). -/
theorem C9_sync_order_and_complete (reqs : List LineReq) :
    (serverResponses reqs).Perm (reqs.map LineReq.rid) ∧
    ((∀ r ∈ reqs, isSyncKind r.kind = true) → serverResponses reqs = reqs.map LineReq.rid) := by
  constructor
  · have h1 : (pendingResponses reqs).Perm ((pendingCalls reqs).map Prod.snd) :=
      (settleOrder_perm (pendingCalls reqs)).map Prod.snd
    exact ((List.Perm.refl (syncResponses reqs)).append h1).trans (syncPend_perm reqs)
  · exact allSync_order reqs

theorem C9_sync_order_and_complete_witness :
    serverResponses [⟨1, .initMsg⟩, ⟨2, .toolsListMsg⟩] =
      ([⟨1, .initMsg⟩, ⟨2, .toolsListMsg⟩] : List LineReq).map LineReq.rid :=
  (C9_sync_order_and_complete [⟨1, .initMsg⟩, ⟨2, .toolsListMsg⟩]).2 (by decide)

/-- C1: after any sequence of load/unload calls from the initial build, the
derived tool list and handler map are exactly the full rebuild of the final
active-module set (they are a pure function of it); the catalog size is the
core size plus one (the module-management tool) plus the sum of the distinct
active modules' tool counts plus the auto-loaded plugin tools; the active set
is duplicate-free; any call order reaching the same final active set yields
the same catalog size; and loading an already-active module returns the
informational result and leaves the whole state unchanged. -/
theorem C1_catalog_pure_rebuild (env : RequireEnv) (cb : Bool) (calls : List ManageCall)
    (st : RegistryState) (hst : st = runCalls env cb (initialRegistry env) calls) :
    st.tools = buildTools env st.activeModules ∧
    st.handlersKeys = buildHandlerKeys env st.activeModules ∧
    st.tools.length = (coreTools env).length + 1 +
      ((st.activeModules.map fun m => (moduleTools env m).length).sum) + env.pluginDefs.length ∧
    st.activeModules.Nodup ∧
    (∀ calls2 st2, st2 = runCalls env cb (initialRegistry env) calls2 →
      st2.activeModules.Perm st.activeModules → st2.tools.length = st.tools.length) ∧
    (∀ m ∈ st.activeModules,
      manageModules env cb st .load (some m) =
        ⟨st, .ok ("ℹ️ Module \x27" ++ m ++ "\x27 already loaded."), [.returned]⟩) := by
  subst hst
  obtain ⟨ht, hh, hnd, hknown⟩ := regInv_runCalls env cb calls _ (regInv_initial env)
  refine ⟨ht, hh, ?_, hnd, ?_, ?_⟩
  · rw [ht, buildTools_length]
  · intro calls2 st2 h2 hperm
    obtain ⟨ht2, _, _, _⟩ := regInv_runCalls env cb calls2 _ (regInv_initial env)
    subst h2
    rw [ht2, ht]
    exact buildTools_length_perm env hperm
  · intro m hm
    have hk := hknown m hm
    have hne : m ≠ "" := by
      intro h; subst h; exact absurd hk (by decide)
    simp [manageModules, hne, hk, hm]

theorem C1_catalog_pure_rebuild_witness :
    (runCalls sampleEnv true (initialRegistry sampleEnv) sampleCallsAlt).tools.length =
      (runCalls sampleEnv true (initialRegistry sampleEnv) sampleCalls).tools.length ∧
    manageModules sampleEnv true (runCalls sampleEnv true (initialRegistry sampleEnv) sampleCalls)
        .load (some "media") =
      ⟨runCalls sampleEnv true (initialRegistry sampleEnv) sampleCalls,
       .ok ("ℹ️ Module \x27" ++ "media" ++ "\x27 already loaded."), [.returned]⟩ :=
  ⟨(C1_catalog_pure_rebuild sampleEnv true sampleCalls _ rfl).2.2.2.2.1 sampleCallsAlt _ rfl
      (by decide),
   (C1_catalog_pure_rebuild sampleEnv true sampleCalls _ rfl).2.2.2.2.2 "media" (by decide)⟩

/-- C2: with the change-notification callback injected, a load that activates a
module (and an unload that deactivates one) emits exactly the event trace
[rebuild completed, callback notified, result returned] — one notification,
after the rebuild, before the result — and its post-state is the full rebuild
of the mutated active set; an already-satisfied request, a missing or unknown
module name, and the list action fire no notification. -/
theorem C2_notify_once_after_rebuild (env : RequireEnv) (st : RegistryState) (m n : String)
    (a : ManageAction) (hk : knownModule m = true) (hn : knownModule n = false) :
    (m ∉ st.activeModules →
      (manageModules env true st .load (some m)).events = [.rebuilt, .notified, .returned] ∧
      (manageModules env true st .load (some m)).events.count RegEvent.notified = 1 ∧
      (manageModules env true st .load (some m)).state =
        updateRegistry env { st with activeModules := st.activeModules ++ [m] }) ∧
    (m ∈ st.activeModules →
      (manageModules env true st .unload (some m)).events = [.rebuilt, .notified, .returned] ∧
      (manageModules env true st .unload (some m)).events.count RegEvent.notified = 1 ∧
      (manageModules env true st .unload (some m)).state =
        updateRegistry env { st with activeModules := st.activeModules.erase m }) ∧
    (m ∈ st.activeModules →
      (manageModules env true st .load (some m)).events.count RegEvent.notified = 0) ∧
    (m ∉ st.activeModules →
      (manageModules env true st .unload (some m)).events.count RegEvent.notified = 0) ∧
    ((manageModules env true st a (some n)).events.count RegEvent.notified = 0) ∧
    ((manageModules env true st a none).events.count RegEvent.notified = 0) ∧
    ((manageModules env true st .list none).events.count RegEvent.notified = 0) := by
  have hne : m ≠ "" := by
    intro h; subst h; exact absurd hk (by decide)
  refine ⟨?_, ?_, ?_, ?_, ?_, ?_, ?_⟩
  · intro hmem
    have he : (manageModules env true st .load (some m)).events =
        [.rebuilt, .notified, .returned] := by simp [manageModules, hne, hk, hmem]
    exact ⟨he, by rw [he]; rfl, by simp [manageModules, hne, hk, hmem]⟩
  · intro hmem
    have he : (manageModules env true st .unload (some m)).events =
        [.rebuilt, .notified, .returned] := by simp [manageModules, hne, hk, hmem]
    exact ⟨he, by rw [he]; rfl, by simp [manageModules, hne, hk, hmem]⟩
  · intro hmem
    have he : (manageModules env true st .load (some m)).events = [.returned] := by
      simp [manageModules, hne, hk, hmem]
    rw [he]; rfl
  · intro hmem
    have he : (manageModules env true st .unload (some m)).events = [.returned] := by
      simp [manageModules, hne, hk, hmem]
    rw [he]; rfl
  · cases a with
    | list => rfl
    | load =>
      have he : (manageModules env true st .load (some n)).events = [] := by
        by_cases hne' : n = ""
        · simp [manageModules, hne']
        · simp [manageModules, hn, hne']
      rw [he]; rfl
    | unload =>
      have he : (manageModules env true st .unload (some n)).events = [] := by
        by_cases hne' : n = ""
        · simp [manageModules, hne']
        · simp [manageModules, hn, hne']
      rw [he]; rfl
  · cases a <;> rfl
  · rfl

theorem C2_notify_once_after_rebuild_witness :
    (manageModules sampleEnv true (initialRegistry sampleEnv) .load (some "media")).events =
      [.rebuilt, .notified, .returned] :=
  ((C2_notify_once_after_rebuild sampleEnv (initialRegistry sampleEnv) "media" "nosuch" .load
      (by decide) (by decide)).1 (by decide)).1

/-- C5: two `getCDPSession` calls with no page change return the identical
session and state; a cached session bound to the currently resolved page is
returned as-is (staleness is decided purely by page identity — pages carry no
URLs in this model); when the resolved page differs, the call returns a
distinct fresh session, the prior session having been detached first (it is
appended to the detach log); and the at-most-one-live-session invariant
(every created session is detached or is the single cached one) is preserved
by every call. -/
theorem C5_cdp_session_cache (p q : Nat) (st : CdpState) (hf : cdpFresh st) :
    (getCDPSession p (getCDPSession p st).2 = getCDPSession p st) ∧
    (∀ s, st.cdpSession = some s → st.currentPage = some p → getCDPSession p st = (s, st)) ∧
    (p ≠ q →
      (getCDPSession q (getCDPSession p st).2).1 ≠ (getCDPSession p st).1 ∧
      (getCDPSession q (getCDPSession p st).2).2.detachedLog =
        (getCDPSession p st).2.detachedLog ++ [(getCDPSession p st).1] ∧
      (getCDPSession q (getCDPSession p st).2).2.cdpSession =
        some (getCDPSession q (getCDPSession p st).2).1) ∧
    (cdpAtMostOneLive st → cdpAtMostOneLive (getCDPSession p st).2) := by
  rcases hcs : st.cdpSession with _ | s
  · have h1 : getCDPSession p st =
        (st.nextSid, ⟨some st.nextSid, some p, st.nextSid + 1,
                      st.detachedLog, st.createdLog ++ [st.nextSid]⟩) := by
      simp [getCDPSession, hcs]
    refine ⟨?_, ?_, ?_, ?_⟩
    · rw [h1]; simp [getCDPSession]
    · intro s hs; exact absurd hs (by simp)
    · intro hpq
      rw [h1]
      simp [getCDPSession, bne_iff_ne, hpq]
    · intro hlive
      rw [h1]
      simp only [cdpAtMostOneLive, hcs] at hlive ⊢
      simp [hlive]
  · by_cases hcp : st.currentPage = some p
    · have h1 : getCDPSession p st = (s, st) := by
        simp [getCDPSession, hcs, hcp]
      refine ⟨?_, ?_, ?_, ?_⟩
      · rw [h1, h1]
      · intro s' hs' _
        injection hs' with hss
        subst hss
        exact h1
      · intro hpq
        rw [h1]
        have hq : st.currentPage ≠ some q := by rw [hcp]; simp [hpq]
        have hlt := hf s hcs
        simp [getCDPSession, hcs, bne_iff_ne, hq]
        omega
      · intro hlive; rw [h1]; exact hlive
    · have h1 : getCDPSession p st =
          (st.nextSid, ⟨some st.nextSid, some p, st.nextSid + 1,
                        st.detachedLog ++ [s], st.createdLog ++ [st.nextSid]⟩) := by
        simp [getCDPSession, hcs, bne_iff_ne, hcp]
      refine ⟨?_, ?_, ?_, ?_⟩
      · rw [h1]; simp [getCDPSession]
      · intro s' _ hp; exact absurd hp hcp
      · intro hpq
        rw [h1]
        simp [getCDPSession, bne_iff_ne, hpq]
      · intro hlive
        rw [h1]
        simp only [cdpAtMostOneLive, hcs] at hlive ⊢
        simp [hlive]

theorem C5_cdp_session_cache_witness :
    getCDPSession 7 (getCDPSession 7 sampleCdp).2 = getCDPSession 7 sampleCdp :=
  (C5_cdp_session_cache 7 9 sampleCdp
    (by intro s hs; simp [sampleCdp] at hs ⊢; omega)).1

theorem resetOnDisconnect_idem (st : BrowserState) :
    resetOnDisconnect (resetOnDisconnect st) = resetOnDisconnect st := by
  rcases hb : st.browser with _ | h
  · simp [resetOnDisconnect, hb]
  · by_cases hl : connectionLost h
    · simp [resetOnDisconnect, hb, hl]
    · simp [resetOnDisconnect, hb, hl]

theorem connectToBrowser_reset (w : World) (st0 : BrowserState) :
    connectToBrowser w st0 = connectToBrowser w (resetOnDisconnect st0) := by
  simp only [connectToBrowser, resetOnDisconnect_idem]

/-- C6: when the cached handle fails the health check, `connectToBrowser` first
returns to the disconnected state (browser, context and page nulled; the
active-page index kept), behaves exactly as a call starting from the
disconnected state, and any successful result holds a handle produced by
re-running the acquisition strategy from the top (attach first, then launch) —
never the stale cached handle. -/
theorem C6_stale_handle_discarded (w : World) (st : BrowserState) (h : Handle)
    (hb : st.browser = some h) (hl : connectionLost h = true) :
    resetOnDisconnect st = ⟨none, none, none, st.activePageIndex⟩ ∧
    connectToBrowser w st = connectToBrowser w ⟨none, none, none, st.activePageIndex⟩ ∧
    (∀ hc, acquireBrowser w = .ok hc →
      ∀ st' c p, connectToBrowser w st = .ok (st', c, p) → st'.browser = some hc.1) := by
  have hr : resetOnDisconnect st = ⟨none, none, none, st.activePageIndex⟩ := by
    simp [resetOnDisconnect, hb, hl]
  refine ⟨hr, ?_, ?_⟩
  · rw [connectToBrowser_reset w st, hr]
  · intro hc hacq st' c p hok
    simp only [connectToBrowser, hr, hacq] at hok
    rcases hc with ⟨h2, c2⟩
    rcases hpg : c2.pages with _ | ⟨pp, ps⟩ <;> rw [hpg] at hok <;>
      simp only [Except.ok.injEq, Prod.mk.injEq] at hok <;>
      rcases hok with ⟨hst', _⟩ <;> rw [← hst']

theorem C6_stale_handle_discarded_witness :
    connectToBrowser attachWorld staleState =
      connectToBrowser attachWorld ⟨none, none, none, staleState.activePageIndex⟩ :=
  (C6_stale_handle_discarded attachWorld staleState staleHandle rfl rfl).2.1

/-- Helper for C10: the clamp at the end of `connectToBrowser` reuses the
prior active-page index, clamped to the new page count — it never resets a
positive index to zero unless the clamp forces it. -/
theorem connectToBrowser_clamp (w : World) (st0 st' : BrowserState) (c : Ctx) (p : Nat)
    (hok : connectToBrowser w st0 = .ok (st', c, p)) :
    st'.activePageIndex = min st0.activePageIndex (c.pages.length - 1) := by
  have hidx : (resetOnDisconnect st0).activePageIndex = st0.activePageIndex := by
    unfold resetOnDisconnect
    rcases st0.browser with _ | h <;> simp
    split <;> rfl
  simp only [connectToBrowser] at hok
  rcases hpre : (match (resetOnDisconnect st0).browser with
                 | none => acquireBrowser w
                 | some h =>
                   Except.ok (h, match (resetOnDisconnect st0).context with
                                 | some c => c
                                 | none => match h.contexts with
                                           | [] => w.freshCtx
                                           | c :: _ => c)) with e | ⟨h2, c2⟩ <;>
    simp only [hpre] at hok
  · exact absurd hok (by simp)
  · rcases hpg : c2.pages with _ | ⟨pp, ps⟩ <;>
      simp only [hpg, Except.ok.injEq, Prod.mk.injEq] at hok <;>
      rcases hok with ⟨hst', hc, _⟩
    · rw [← hst', ← hc]
      simp
    · rw [← hst', ← hc]
      simp only [hidx, hpg, List.length_cons]
      split <;> omega

/-- C10: the lost-connection path inside `connectToBrowser` nulls exactly the
browser, context and page fields, keeping the prior `activePageIndex` (unlike
`resetBrowserState`, which zeroes it); a successful reconnection leaves the CDP
module state untouched (`resetCDPSession` is not on this path) and reuses the
prior tab index clamped to the new page count; the cached stale CDP session is
replaced only when a later `getCDPSession` call observes a page-identity
mismatch — a matching page identity returns it unchanged. -/
theorem C10_disconnect_keeps_index_and_cdp (w : World) (s : SystemState) (h : Handle)
    (hb : s.conn.browser = some h) (hl : connectionLost h = true) :
    resetOnDisconnect s.conn = ⟨none, none, none, s.conn.activePageIndex⟩ ∧
    (resetBrowserState s.conn).activePageIndex = 0 ∧
    (∀ s' c p, connectToBrowserSys w s = .ok (s', c, p) →
      s'.cdp = s.cdp ∧
      s'.conn.activePageIndex = min s.conn.activePageIndex (c.pages.length - 1)) ∧
    (∀ sid pg pg', s.cdp.cdpSession = some sid → s.cdp.currentPage = some pg' →
      cdpFresh s.cdp →
      (pg' = pg → getCDPSession pg s.cdp = (sid, s.cdp)) ∧
      (pg' ≠ pg → (getCDPSession pg s.cdp).1 ≠ sid ∧
        (getCDPSession pg s.cdp).2.detachedLog = s.cdp.detachedLog ++ [sid])) := by
  refine ⟨by simp [resetOnDisconnect, hb, hl], rfl, ?_, ?_⟩
  · intro s' c p hok
    unfold connectToBrowserSys at hok
    rcases hcb : connectToBrowser w s.conn with e | ⟨st', c', p'⟩ <;> rw [hcb] at hok
    · exact absurd hok (by simp)
    · simp only [Except.ok.injEq, Prod.mk.injEq] at hok
      rcases hok with ⟨hs', hc, hp⟩
      subst hc
      constructor
      · rw [← hs']
      · rw [← hs']
        exact connectToBrowser_clamp w s.conn st' c' p' hcb
  · intro sid pg pg' hcs hcp hf
    constructor
    · intro hpp
      subst hpp
      simp [getCDPSession, hcs, hcp]
    · intro hpp
      have hq : s.cdp.currentPage ≠ some pg := by rw [hcp]; simp [hpp]
      have hlt := hf sid hcs
      simp [getCDPSession, hcs, bne_iff_ne, hq]
      omega

theorem C10_disconnect_keeps_index_and_cdp_witness :
    resetOnDisconnect staleState = ⟨none, none, none, staleState.activePageIndex⟩ ∧
    (resetBrowserState staleState).activePageIndex = 0 :=
  ⟨(C10_disconnect_keeps_index_and_cdp attachWorld ⟨staleState, sampleCdp⟩ staleHandle
      rfl rfl).1,
   (C10_disconnect_keeps_index_and_cdp attachWorld ⟨staleState, sampleCdp⟩ staleHandle
      rfl rfl).2.1⟩

end BrowserMCP
